import Mathlib

/-!
Shallow embedding of the grr-checkin attendees-list service.

Server side (the attendees-list API route): the three-tier attendee/seat
fetch with statement-timeout degradation, the row projection into display
rows, and the error classification of the request handler.

Client side (the dashboard page): the free-text name filter, the grouping
of rows by event display-time string, and the within-group seat sort.

The data store is modelled as an oracle (`AttendeeStore`, `Store`): each
query the route issues is a field returning either rows or a database
error carrying an optional error code, exactly mirroring the pg driver
interface the code consumes.
-/

namespace GrrCheckin

/-- Fixed host account the route is scoped to (`HOST_USER_ID`). -/
def HOST_USER_ID : Int := 9835080

/-- Distinguished statement-timeout error code (`STATEMENT_TIMEOUT_CODE`). -/
def STATEMENT_TIMEOUT_CODE : String := "57014"

/-- Row cap applied by every fetch strategy (`MAX_ATTENDEE_ROWS`). -/
def MAX_ATTENDEE_ROWS : Nat := 10000

/-- One labeled component of a structured seat description
(`seat_obj.components[i]`). -/
structure SeatComponent where
  key : String
  label : String
  value : String
deriving DecidableEq, Repr

/-- The structured seat description (`seat_obj`): its `components` field is
optional in the source type. -/
structure SeatObj where
  components : Option (List SeatComponent)
deriving DecidableEq, Repr

/-- A row of the joined attendee/seat queries (`CombinedAttendeeRow`). -/
structure CombinedAttendeeRow where
  attendee_id : Int
  first_name : Option String
  last_name : Option String
  event_id : Int
  seat_id : Option String
  seat_obj : Option SeatObj
  checkin_timestamp : Option String
deriving DecidableEq, Repr

/-- A row of the attendee-only fallback query (`BasicAttendeeRow`). -/
structure BasicAttendeeRow where
  attendee_id : Int
  first_name : Option String
  last_name : Option String
  event_id : Int
deriving DecidableEq, Repr

/-- An error surfaced by the data-store query interface (`DatabaseError`):
a message plus an optional error code field. -/
structure DBError where
  message : String
  code : Option String
deriving DecidableEq, Repr

/-- `isStatementTimeout`: the thrown value carries a `code` field equal to
the distinguished statement-timeout code. -/
def isStatementTimeout (e : DBError) : Bool :=
  e.code == some STATEMENT_TIMEOUT_CODE

/-- Oracle for the three attendee-fetch queries the degradation chain can
issue: the bulk joined query over an event-id list, the per-event joined
query, and the attendee-only fallback query. -/
structure AttendeeStore where
  bulk : List Int → Except DBError (List CombinedAttendeeRow)
  perEvent : Int → Except DBError (List CombinedAttendeeRow)
  attendeesOnly : List Int → Except DBError (List BasicAttendeeRow)

/-- Loop body of `fetchAttendeesPerEvent`: iterate over the remaining event
ids, accumulating rows; a query error propagates; once the accumulator
reaches `MAX_ATTENDEE_ROWS` the result is truncated and the loop returns
without issuing further queries. -/
def fetchAttendeesPerEventGo (db : AttendeeStore) :
    List Int → List CombinedAttendeeRow → Except DBError (List CombinedAttendeeRow)
  | [], aggregated => .ok aggregated
  | eventId :: rest, aggregated =>
    match db.perEvent eventId with
    | .error e => .error e
    | .ok rows =>
      if MAX_ATTENDEE_ROWS ≤ (aggregated ++ rows).length then
        .ok ((aggregated ++ rows).take MAX_ATTENDEE_ROWS)
      else
        fetchAttendeesPerEventGo db rest (aggregated ++ rows)

/-- `fetchAttendeesPerEvent`: per-event joined fetch (tier 2). -/
def fetchAttendeesPerEvent (db : AttendeeStore) (eventIds : List Int) :
    Except DBError (List CombinedAttendeeRow) :=
  fetchAttendeesPerEventGo db eventIds []

/-- The spread-with-null-overrides a basic attendee row goes through in
`fetchAttendeesWithoutSeats`: seat id, seat object and check-in timestamp
are forced to null. -/
def basicToCombined (row : BasicAttendeeRow) : CombinedAttendeeRow :=
  { attendee_id := row.attendee_id
    first_name := row.first_name
    last_name := row.last_name
    event_id := row.event_id
    seat_id := none
    seat_obj := none
    checkin_timestamp := none }

/-- `fetchAttendeesWithoutSeats`: attendee-only fetch (tier 3); its query
error propagates to the caller. -/
def fetchAttendeesWithoutSeats (db : AttendeeStore) (eventIds : List Int) :
    Except DBError (List CombinedAttendeeRow) :=
  match db.attendeesOnly eventIds with
  | .error e => .error e
  | .ok attendeeRows => .ok (attendeeRows.map basicToCombined)

/-- Result of the degradation chain: rows plus the
`seatAssignmentsIncluded` flag. -/
structure FetchResult where
  rows : List CombinedAttendeeRow
  seatAssignmentsIncluded : Bool
deriving DecidableEq, Repr

/-- `fetchAttendeesWithFallback`: bulk joined fetch; on a statement-timeout
retry per event; on a second statement-timeout fall back to attendee-only
rows with `seatAssignmentsIncluded = false`; any non-timeout error, and any
error of the attendee-only fetch, propagates unchanged. -/
def fetchAttendeesWithFallback (db : AttendeeStore) (eventIds : List Int) :
    Except DBError FetchResult :=
  match db.bulk eventIds with
  | .ok rows => .ok { rows := rows, seatAssignmentsIncluded := true }
  | .error e =>
    if isStatementTimeout e then
      match fetchAttendeesPerEvent db eventIds with
      | .ok perEventRows => .ok { rows := perEventRows, seatAssignmentsIncluded := true }
      | .error perEventError =>
        if isStatementTimeout perEventError then
          match fetchAttendeesWithoutSeats db eventIds with
          | .ok fallbackRows => .ok { rows := fallbackRows, seatAssignmentsIncluded := false }
          | .error e3 => .error e3
        else
          .error perEventError
    else
      .error e

/-- The event ids for which `fetchAttendeesPerEventGo` actually issues a
per-event query, given the accumulated row count so far: iteration stops
at the first query error and at the first id whose rows push the
accumulator to the cap. -/
def perEventQueried (db : AttendeeStore) : List Int → Nat → List Int
  | [], _ => []
  | eventId :: rest, acc =>
    match db.perEvent eventId with
    | .error _ => [eventId]
    | .ok rows =>
      if MAX_ATTENDEE_ROWS ≤ acc + rows.length then [eventId]
      else eventId :: perEventQueried db rest (acc + rows.length)

/-- JavaScript string truthiness on an optional string column: null and
the empty string are falsy. -/
def strTruthy : Option String → Bool
  | none => false
  | some s => !(s == "")

/-- A qualifying event as returned by the event resolver query: id, name,
raw start timestamp, pre-formatted display time, attendee count. -/
structure EventRow where
  id : Int
  name : String
  start_at : String
  start_at_formatted : String
  attendee_count : Int
deriving DecidableEq, Repr

/-- Intermediate row after the handler attaches the event display time to
each combined row (the `results` array in `GET`). -/
structure ResultRow where
  first_name : Option String
  last_name : Option String
  event_id : Int
  event_start_at_formatted : String
  seat_id : Option String
  seat_obj : Option SeatObj
  checkin_timestamp : Option String
deriving DecidableEq, Repr

/-- `results.map(...)` in `GET`: look the row's event up in the resolver
output (`eventResult.find`) and attach its pre-formatted start time, with
`"-"` when the event is missing or its formatted time is falsy. -/
def combineWithEvent (eventResult : List EventRow) (row : CombinedAttendeeRow) : ResultRow :=
  let eventInfo := eventResult.find? (fun e => e.id == row.event_id)
  { first_name := row.first_name
    last_name := row.last_name
    event_id := row.event_id
    event_start_at_formatted :=
      match eventInfo with
      | some e => if e.start_at_formatted == "" then "-" else e.start_at_formatted
      | none => "-"
    seat_id := row.seat_id
    seat_obj := row.seat_obj
    checkin_timestamp := row.checkin_timestamp }

/-- A projected display row (`transformedResults` element on the server,
`AttendeeResult` on the dashboard). -/
structure AttendeeResult where
  eventStartTime : String
  attendeeName : String
  seatInfo : Option String
  validatedAt : Option String
deriving DecidableEq, Repr

/-- Seat display string resolution inside `transformedResults`: the raw
`seat_id` when truthy; else the structured components joined as
`"label: value"` pairs with `", "` when at least one component exists;
else null. -/
def resolveSeatInfo (seat_id : Option String) (seat_obj : Option SeatObj) : Option String :=
  if strTruthy seat_id then seat_id
  else
    match seat_obj with
    | some obj =>
      match obj.components with
      | some comps =>
        if 0 < comps.length then
          some (String.intercalate ", " (comps.map (fun comp => comp.label ++ ": " ++ comp.value)))
        else none
      | none => none
    | none => none

/-- Attendee display name inside `transformedResults`: `"first last"` when
both are truthy, else whichever is truthy, else `"Unknown"`. -/
def attendeeNameOf (first_name last_name : Option String) : String :=
  if strTruthy first_name && strTruthy last_name then
    first_name.getD "" ++ " " ++ last_name.getD ""
  else if strTruthy first_name then first_name.getD ""
  else if strTruthy last_name then last_name.getD ""
  else "Unknown"

/-- One element of `transformedResults` in `GET`: projection of a
`ResultRow` into the display row returned to the client. -/
def transformRow (row : ResultRow) : AttendeeResult :=
  { eventStartTime :=
      if row.event_start_at_formatted == "" then "-" else row.event_start_at_formatted
    attendeeName := attendeeNameOf row.first_name row.last_name
    seatInfo := resolveSeatInfo row.seat_id row.seat_obj
    validatedAt := row.checkin_timestamp }

/-- Metadata object of a success response; `seatAssignmentsIncluded` is
only present on the full (non-short-circuit) path. -/
structure Metadata where
  hostUserId : Int
  total : Nat
  seatAssignmentsIncluded : Option Bool
deriving DecidableEq, Repr

/-- Body of a success response of the route. -/
structure ApiResponse where
  results : List AttendeeResult
  metadata : Metadata
deriving DecidableEq, Repr

/-- Oracle for every query `GET` issues before and during the attendee
fetch: the step-1 count probe, the step-2 event resolver, and the three
attendee-fetch queries. -/
structure Store where
  eventCount : Except DBError Int
  events : Except DBError (List EventRow)
  att : AttendeeStore

/-- The try-block of `GET`: count probe, event resolution with an empty
short-circuit, the degradation-chain fetch with a second empty
short-circuit, then projection into display rows. Any query error
propagates to the catch block. -/
def handleGET (db : Store) : Except DBError ApiResponse := do
  let _ ← db.eventCount
  let eventResult ← db.events
  if eventResult.length = 0 then
    return { results := [], metadata := { hostUserId := HOST_USER_ID, total := 0, seatAssignmentsIncluded := none } }
  let eventIds := eventResult.map (fun e => e.id)
  let fetched ← fetchAttendeesWithFallback db.att eventIds
  if fetched.rows.length = 0 then
    return { results := [], metadata := { hostUserId := HOST_USER_ID, total := 0, seatAssignmentsIncluded := none } }
  let results := fetched.rows.map (combineWithEvent eventResult)
  let transformedResults := results.map transformRow
  return { results := transformedResults
           metadata := { hostUserId := HOST_USER_ID
                         total := transformedResults.length
                         seatAssignmentsIncluded := some fetched.seatAssignmentsIncluded } }

/-- Character-list version of `String.startsWith` used to model the
JavaScript `includes` check, comparing code points exactly. -/
def startsWithChars : List Char → List Char → Bool
  | [], _ => true
  | _ :: _, [] => false
  | a :: as, b :: bs => a == b && startsWithChars as bs

/-- Character-list version of JavaScript `String.prototype.includes`:
the needle occurs contiguously somewhere in the haystack. -/
def containsChars (needle : List Char) : List Char → Bool
  | [] => startsWithChars needle []
  | c :: rest => startsWithChars needle (c :: rest) || containsChars needle rest

/-- The catch-block connectivity test of `GET`: the thrown value is an
`Error` whose message contains `"connect"`. -/
def isConnectionError (e : DBError) : Bool :=
  containsChars "connect".toList e.message.toList

/-- A JSON error response of the route: HTTP status, generic message and
the optional `details` field. -/
structure ErrorResponse where
  status : Nat
  error : String
  details : Option String
deriving DecidableEq, Repr

/-- The catch block of `GET`: connectivity failures get a 503 response,
everything else a 500 response; `details` carries the error message only
when `NODE_ENV` is `"development"`. -/
def errorResponseOf (nodeEnv : String) (e : DBError) : ErrorResponse :=
  if isConnectionError e then
    { status := 503
      error := "Database connection failed. Please check your credentials and try again."
      details := if nodeEnv == "development" then some e.message else none }
  else
    { status := 500
      error := "Failed to fetch attendees list"
      details := if nodeEnv == "development" then some e.message else none }

/-- Full outcome of one request: either one success body or one error
response. -/
inductive RouteResponse where
  | success (body : ApiResponse)
  | failure (body : ErrorResponse)
deriving DecidableEq, Repr

/-- `GET` with its catch block: the try-block result on success, the
classified error response on failure. -/
def GET (nodeEnv : String) (db : Store) : RouteResponse :=
  match handleGET db with
  | .ok body => .success body
  | .error e => .failure (errorResponseOf nodeEnv e)

/-- Character-list version of the string trim the dashboard filter
applies to the search query: strip whitespace from both ends. -/
def trimChars (cs : List Char) : List Char :=
  ((cs.dropWhile Char.isWhitespace).reverse.dropWhile Char.isWhitespace).reverse

/-- `filteredResults` on the dashboard: keep a row when the trimmed search
query is empty, or when the lower-cased attendee name contains the
lower-cased query. -/
def filteredResults (searchQuery : String) (results : List AttendeeResult) : List AttendeeResult :=
  results.filter (fun result =>
    if (trimChars searchQuery.toList).isEmpty then true
    else containsChars (searchQuery.toList.map Char.toLower)
      (result.attendeeName.toList.map Char.toLower))

/-- A visual group on the dashboard (`GroupedEvent`). -/
structure GroupedEvent where
  eventStartTime : String
  attendees : List AttendeeResult
deriving DecidableEq, Repr

/-- One step of the grouping reduce: push the row onto the first group
whose `eventStartTime` equals the row's, or append a fresh group. -/
def pushToGroup : List GroupedEvent → AttendeeResult → List GroupedEvent
  | [], result => [{ eventStartTime := result.eventStartTime, attendees := [result] }]
  | g :: gs, result =>
    if g.eventStartTime == result.eventStartTime then
      { g with attendees := g.attendees ++ [result] } :: gs
    else
      g :: pushToGroup gs result

/-- `groupedEvents` on the dashboard: rows bucketed by exact equality of
the event display-time string, in first-appearance order. -/
def groupedEvents (results : List AttendeeResult) : List GroupedEvent :=
  results.foldl pushToGroup []

/-- Attendees of the first group carrying the given display-time string
(empty when no group does); used to characterise the grouping. -/
def groupAttendees (groups : List GroupedEvent) (t : String) : List AttendeeResult :=
  match groups.find? (fun g => g.eventStartTime == t) with
  | some g => g.attendees
  | none => []

/-- Case-insensitive literal match of a keyword at the head of the input,
returning the rest of the input on success; models a case-insensitive
regex literal. -/
def matchKeyword : List Char → List Char → Option (List Char)
  | [], rest => some rest
  | _ :: _, [] => none
  | k :: ks, c :: cs => if k.toLower == c.toLower then matchKeyword ks cs else none

/-- Numeric value of a digit run, as `parseInt(…, 10)` computes it. -/
def digitsToNat (ds : List Char) : Nat :=
  ds.foldl (fun n c => n * 10 + (c.toNat - '0'.toNat)) 0

/-- Match of the seat pattern anchored at the current position: `CAR`,
optional whitespace, a digit run, optional whitespace, an optional dash,
optional whitespace, `Seat` or `Table`, at least one whitespace, a digit
run; everything case-insensitive. Returns the two captured numbers. -/
def matchSeatAt (cs : List Char) : Option (Nat × Nat) :=
  match matchKeyword "CAR".toList cs with
  | none => none
  | some cs =>
    let cs := cs.dropWhile Char.isWhitespace
    let carDigits := cs.takeWhile Char.isDigit
    let cs := cs.dropWhile Char.isDigit
    if carDigits.isEmpty then none
    else
      let cs := cs.dropWhile Char.isWhitespace
      let cs := match cs with
        | '-' :: rest => rest
        | other => other
      let cs := cs.dropWhile Char.isWhitespace
      let kw := match matchKeyword "Seat".toList cs with
        | some rest => some rest
        | none => matchKeyword "Table".toList cs
      match kw with
      | none => none
      | some cs =>
        match cs with
        | [] => none
        | c :: rest =>
          if c.isWhitespace then
            let rest := rest.dropWhile Char.isWhitespace
            let seatDigits := rest.takeWhile Char.isDigit
            if seatDigits.isEmpty then none
            else some (digitsToNat carDigits, digitsToNat seatDigits)
          else none

/-- Leftmost match of the seat pattern in the string, as the unanchored
regex search finds it. -/
def findSeat : List Char → Option (Nat × Nat)
  | [] => none
  | c :: cs =>
    match matchSeatAt (c :: cs) with
    | some r => some r
    | none => findSeat cs

/-- `parseSeatId` on the dashboard: a null or non-matching seat display
string yields no key (treated as infinitely large on both components),
a matching one yields its car number and seat-or-table number. -/
def parseSeatId : Option String → Option (Nat × Nat)
  | none => none
  | some s => findSeat s.toList

/-- Before-or-equal ordering the seat comparator induces on parsed keys:
ascending by car number, then by seat/table number, with the absent key
greatest. -/
def seatKeyLE (a b : Option (Nat × Nat)) : Bool :=
  match a, b with
  | none, none => true
  | none, some _ => false
  | some _, none => true
  | some (c1, s1), some (c2, s2) => if c1 = c2 then s1 ≤ s2 else c1 < c2

/-- The within-group comparator of the dashboard lifted to rows. -/
def seatLE (a b : AttendeeResult) : Prop :=
  seatKeyLE (parseSeatId a.seatInfo) (parseSeatId b.seatInfo) = true

instance : DecidableRel seatLE := fun a b => by
  unfold seatLE; infer_instance

/-- `event.attendees.sort(...)` on the dashboard: stable sort of a group
by the seat comparator (JavaScript array sort is stable). -/
def sortAttendeesBySeat (attendees : List AttendeeResult) : List AttendeeResult :=
  List.insertionSort seatLE attendees

instance : IsTotal AttendeeResult seatLE :=
  ⟨fun a b => by
    have key : ∀ x y : Option (Nat × Nat), seatKeyLE x y = true ∨ seatKeyLE y x = true := by
      intro x y
      rcases x with _ | ⟨c1, s1⟩ <;> rcases y with _ | ⟨c2, s2⟩ <;>
        simp [seatKeyLE] <;> (try split_ifs) <;> omega
    exact key _ _⟩

instance : IsTrans AttendeeResult seatLE :=
  ⟨fun a b c hab hbc => by
    have key : ∀ x y z : Option (Nat × Nat),
        seatKeyLE x y = true → seatKeyLE y z = true → seatKeyLE x z = true := by
      intro x y z hxy hyz
      rcases x with _ | ⟨c1, s1⟩ <;> rcases y with _ | ⟨c2, s2⟩ <;> rcases z with _ | ⟨c3, s3⟩ <;>
        simp_all [seatKeyLE] <;> (try split_ifs at *) <;> omega
    exact key _ _ _ hab hbc⟩

/-- Concrete combined row used by witnesses. -/
def wRow (i : Int) : CombinedAttendeeRow :=
  { attendee_id := i, first_name := none, last_name := none, event_id := i
    seat_id := none, seat_obj := none, checkin_timestamp := none }

/-- Witness store: bulk fetch fails with a non-timeout error code. -/
def wStoreA : AttendeeStore :=
  { bulk := fun _ => .error { message := "boom", code := some "12345" }
    perEvent := fun i => .ok [wRow i]
    attendeesOnly := fun _ => .ok [] }

/-- Witness store: bulk fetch times out, per-event queries succeed. -/
def wStoreB : AttendeeStore :=
  { bulk := fun _ => .error { message := "statement timeout", code := some "57014" }
    perEvent := fun i => .ok [wRow i]
    attendeesOnly := fun _ => .ok [] }

/-- Witness store: bulk and per-event fetches time out, attendee-only
fetch succeeds. -/
def wStoreC : AttendeeStore :=
  { bulk := fun _ => .error { message := "statement timeout", code := some "57014" }
    perEvent := fun _ => .error { message := "statement timeout", code := some "57014" }
    attendeesOnly := fun _ => .ok [{ attendee_id := 7, first_name := some "A", last_name := some "B", event_id := 5 }] }

/-- Witness store: bulk fetch times out, per-event queries succeed except
for event 9, which times out mid-iteration. -/
def wStoreD : AttendeeStore :=
  { bulk := fun _ => .error { message := "statement timeout", code := some "57014" }
    perEvent := fun i =>
      if i == 9 then .error { message := "statement timeout", code := some "57014" }
      else .ok [wRow i]
    attendeesOnly := fun _ => .ok [{ attendee_id := 7, first_name := some "A", last_name := some "B", event_id := 5 }] }

/-- Witness store for the request handler: the event resolver query fails
with a connection-level error. -/
def wStoreFail : Store :=
  { eventCount := .ok 1
    events := .error { message := "connect ECONNREFUSED", code := none }
    att := wStoreA }

/-- Witness store for the request handler: zero qualifying events. -/
def wStoreEmpty : Store :=
  { eventCount := .ok 3
    events := .ok []
    att := wStoreA }

/-- Concrete display rows used by witnesses. -/
def anaRow : AttendeeResult :=
  { eventStartTime := "-", attendeeName := "Ana Lee", seatInfo := none, validatedAt := none }

/-- Concrete display row used by witnesses. -/
def juanRow : AttendeeResult :=
  { eventStartTime := "-", attendeeName := "Juan Cruz", seatInfo := none, validatedAt := none }

/-- Concrete display row with seat string used by the sorting example. -/
def seatRow (name : String) (seat : Option String) : AttendeeResult :=
  { eventStartTime := "-", attendeeName := name, seatInfo := seat, validatedAt := none }

/-! ## Helper lemmas -/

theorem startsWithChars_iff : ∀ (needle hay : List Char),
    startsWithChars needle hay = true ↔ ∃ t, hay = needle ++ t
  | [], hay => by
    constructor
    · intro _; exact ⟨hay, rfl⟩
    · intro _; rfl
  | _ :: _, [] => by
    constructor
    · intro h; simp [startsWithChars] at h
    · rintro ⟨t, ht⟩; simp at ht
  | a :: as, b :: bs => by
    constructor
    · intro h
      simp only [startsWithChars, Bool.and_eq_true, beq_iff_eq] at h
      obtain ⟨rfl, h2⟩ := h
      obtain ⟨t, rfl⟩ := (startsWithChars_iff as bs).mp h2
      exact ⟨t, rfl⟩
    · rintro ⟨t, ht⟩
      simp only [List.cons_append, List.cons.injEq] at ht
      obtain ⟨rfl, rfl⟩ := ht
      have h2 := (startsWithChars_iff as (as ++ t)).mpr ⟨t, rfl⟩
      simp [startsWithChars, h2]

theorem containsChars_iff : ∀ (needle hay : List Char),
    containsChars needle hay = true ↔ ∃ pre post, hay = pre ++ needle ++ post
  | n, [] => by
    rw [containsChars, startsWithChars_iff]
    constructor
    · rintro ⟨t, ht⟩
      exact ⟨[], t, by simpa using ht⟩
    · rintro ⟨pre, post, h⟩
      have hn : n = [] := by cases pre <;> simp_all
      subst hn
      exact ⟨[], rfl⟩
  | n, c :: rest => by
    rw [containsChars, Bool.or_eq_true]
    constructor
    · intro h
      rcases h with h1 | h2
      · obtain ⟨t, ht⟩ := (startsWithChars_iff n (c :: rest)).mp h1
        exact ⟨[], t, by simpa using ht⟩
      · obtain ⟨pre, post, hp⟩ := (containsChars_iff n rest).mp h2
        exact ⟨c :: pre, post, by simp [hp]⟩
    · rintro ⟨pre, post, hp⟩
      cases pre with
      | nil =>
        left
        exact (startsWithChars_iff n (c :: rest)).mpr ⟨post, by simpa using hp⟩
      | cons p ps =>
        right
        apply (containsChars_iff n rest).mpr
        have hp2 := hp
        simp only [List.cons_append, List.cons.injEq] at hp2
        exact ⟨ps, post, hp2.2⟩

theorem fetchAttendeesPerEventGo_all_ok (db : AttendeeStore) (f : Int → List CombinedAttendeeRow) :
    ∀ (ids : List Int) (acc : List CombinedAttendeeRow),
      (∀ i ∈ ids, db.perEvent i = .ok (f i)) → acc.length < MAX_ATTENDEE_ROWS →
      fetchAttendeesPerEventGo db ids acc = .ok ((acc ++ (ids.map f).flatten).take MAX_ATTENDEE_ROWS)
  | [], acc, _, hlen => by
    simp [fetchAttendeesPerEventGo, List.take_of_length_le (Nat.le_of_lt hlen)]
  | i :: rest, acc, hok, hlen => by
    have hi := hok i (List.mem_cons_self i rest)
    rw [fetchAttendeesPerEventGo, hi]
    dsimp only
    by_cases hcap : MAX_ATTENDEE_ROWS ≤ (acc ++ f i).length
    · rw [if_pos hcap]
      congr 1
      rw [List.map_cons, List.flatten_cons, ← List.append_assoc]
      exact (List.take_append_of_le_length hcap).symm
    · rw [if_neg hcap]
      rw [fetchAttendeesPerEventGo_all_ok db f rest (acc ++ f i)
        (fun j hj => hok j (List.mem_cons_of_mem _ hj)) (Nat.lt_of_not_le hcap)]
      rw [List.map_cons, List.flatten_cons, List.append_assoc]

theorem fetchAttendeesPerEventGo_frame (db db' : AttendeeStore) :
    ∀ (ids : List Int) (acc : List CombinedAttendeeRow),
      (∀ i ∈ perEventQueried db ids acc.length, db'.perEvent i = db.perEvent i) →
      fetchAttendeesPerEventGo db' ids acc = fetchAttendeesPerEventGo db ids acc
  | [], acc, _ => by simp [fetchAttendeesPerEventGo]
  | i :: rest, acc, hagree => by
    have hi : db'.perEvent i = db.perEvent i := by
      apply hagree
      rw [perEventQueried]
      cases hq : db.perEvent i with
      | error e => simp
      | ok rows =>
        by_cases hcap : MAX_ATTENDEE_ROWS ≤ acc.length + rows.length <;> simp [hcap]
    rw [fetchAttendeesPerEventGo, fetchAttendeesPerEventGo, hi]
    cases hq : db.perEvent i with
    | error e => rfl
    | ok rows =>
      dsimp only
      by_cases hcap : MAX_ATTENDEE_ROWS ≤ (acc ++ rows).length
      · rw [if_pos hcap, if_pos hcap]
      · rw [if_neg hcap, if_neg hcap]
        apply fetchAttendeesPerEventGo_frame db db' rest (acc ++ rows)
        intro j hj
        apply hagree
        rw [perEventQueried, hq]
        dsimp only
        have hcap' : ¬ MAX_ATTENDEE_ROWS ≤ acc.length + rows.length := by
          simpa [List.length_append] using hcap
        rw [if_neg hcap']
        exact List.mem_cons_of_mem _ (by simpa [List.length_append] using hj)

theorem fetchAttendeesPerEventGo_error_after (db : AttendeeStore)
    (f : Int → List CombinedAttendeeRow) (j : Int) (ids₂ : List Int) (e2 : DBError)
    (hj : db.perEvent j = .error e2) :
    ∀ (ids₁ : List Int) (acc : List CombinedAttendeeRow),
      (∀ i ∈ ids₁, db.perEvent i = .ok (f i)) →
      acc.length + ((ids₁.map f).flatten).length < MAX_ATTENDEE_ROWS →
      fetchAttendeesPerEventGo db (ids₁ ++ j :: ids₂) acc = .error e2
  | [], acc, _, _ => by
    rw [List.nil_append, fetchAttendeesPerEventGo, hj]
  | i :: rest, acc, hok, hlen => by
    have hi := hok i (List.mem_cons_self i rest)
    rw [List.cons_append, fetchAttendeesPerEventGo, hi]
    dsimp only
    simp only [List.map_cons, List.flatten_cons, List.length_append] at hlen
    have hcap : ¬ MAX_ATTENDEE_ROWS ≤ (acc ++ f i).length := by
      simp only [List.length_append]
      omega
    rw [if_neg hcap]
    apply fetchAttendeesPerEventGo_error_after db f j ids₂ e2 hj rest (acc ++ f i)
      (fun k hk => hok k (List.mem_cons_of_mem _ hk))
    simp only [List.length_append]
    omega

theorem basicToCombined_seat_fields (row : BasicAttendeeRow) :
    (basicToCombined row).seat_id = none ∧ (basicToCombined row).seat_obj = none ∧
      (basicToCombined row).checkin_timestamp = none := by
  simp [basicToCombined]

theorem groupAttendees_pushToGroup : ∀ (groups : List GroupedEvent) (r : AttendeeResult) (t : String),
    groupAttendees (pushToGroup groups r) t =
      groupAttendees groups t ++ (if r.eventStartTime == t then [r] else [])
  | [], r, t => by
    by_cases h : r.eventStartTime = t
    · have hb : (r.eventStartTime == t) = true := beq_iff_eq.mpr h
      simp [groupAttendees, pushToGroup, List.find?, hb]
    · have hb : (r.eventStartTime == t) = false := beq_eq_false_iff_ne.mpr h
      simp [groupAttendees, pushToGroup, List.find?, hb]
  | g :: gs, r, t => by
    by_cases hgr : g.eventStartTime = r.eventStartTime
    · have hgr' : (g.eventStartTime == r.eventStartTime) = true := beq_iff_eq.mpr hgr
      by_cases hgt : g.eventStartTime = t
      · have hgt' : (g.eventStartTime == t) = true := beq_iff_eq.mpr hgt
        have hrt' : (r.eventStartTime == t) = true := beq_iff_eq.mpr (by rw [← hgr]; exact hgt)
        simp [groupAttendees, pushToGroup, List.find?, hgr', hgt', hrt']
      · have hgt' : (g.eventStartTime == t) = false := beq_eq_false_iff_ne.mpr hgt
        have hrt : ¬ r.eventStartTime = t := by rw [← hgr]; exact hgt
        have hrt' : (r.eventStartTime == t) = false := beq_eq_false_iff_ne.mpr hrt
        simp [groupAttendees, pushToGroup, List.find?, hgr', hgt', hrt']
    · have hgr' : (g.eventStartTime == r.eventStartTime) = false := beq_eq_false_iff_ne.mpr hgr
      by_cases hgt : g.eventStartTime = t
      · have hgt' : (g.eventStartTime == t) = true := beq_iff_eq.mpr hgt
        have hrt : ¬ r.eventStartTime = t := fun h => hgr (hgt.trans h.symm)
        have hrt' : (r.eventStartTime == t) = false := beq_eq_false_iff_ne.mpr hrt
        simp [groupAttendees, pushToGroup, List.find?, hgr', hgt', hrt']
      · have hgt' : (g.eventStartTime == t) = false := beq_eq_false_iff_ne.mpr hgt
        have ih := groupAttendees_pushToGroup gs r t
        simp only [groupAttendees] at ih
        simp [groupAttendees, pushToGroup, List.find?, hgr', hgt', ih]

theorem groupAttendees_foldl : ∀ (rows : List AttendeeResult) (acc : List GroupedEvent) (t : String),
    groupAttendees (rows.foldl pushToGroup acc) t =
      groupAttendees acc t ++ rows.filter (fun r => r.eventStartTime == t)
  | [], acc, t => by simp
  | r :: rs, acc, t => by
    rw [List.foldl_cons, groupAttendees_foldl rs (pushToGroup acc r) t,
      groupAttendees_pushToGroup, List.filter_cons, List.append_assoc]
    by_cases h : r.eventStartTime = t <;> simp [h]

theorem fallback_tier3 (db : AttendeeStore) (eventIds : List Int) (e e2 : DBError)
    (bs : List BasicAttendeeRow)
    (hb : db.bulk eventIds = .error e) (ht : isStatementTimeout e = true)
    (hpe : fetchAttendeesPerEvent db eventIds = .error e2) (ht2 : isStatementTimeout e2 = true)
    (ha : db.attendeesOnly eventIds = .ok bs) :
    fetchAttendeesWithFallback db eventIds =
      .ok { rows := bs.map basicToCombined, seatAssignmentsIncluded := false } := by
  have hws : fetchAttendeesWithoutSeats db eventIds = .ok (bs.map basicToCombined) := by
    simp only [fetchAttendeesWithoutSeats]
    rw [ha]
  simp only [fetchAttendeesWithFallback]
  rw [hb]
  dsimp only
  rw [if_pos ht, hpe]
  dsimp only
  rw [if_pos ht2, hws]

theorem mapped_rows_seat_fields (bs : List BasicAttendeeRow) :
    ∀ row ∈ bs.map basicToCombined,
      row.seat_id = none ∧ row.seat_obj = none ∧ row.checkin_timestamp = none := by
  intro row hrow
  obtain ⟨b, _, rfl⟩ := List.mem_map.mp hrow
  exact basicToCombined_seat_fields b

/-! ## Claim theorems -/

/-- Claim C1: for every fetch over a non-empty event-id list, only an
error carrying the statement-timeout code 57014 escalates between tiers:
a bulk-fetch timeout moves to the per-event fetch, a per-event timeout
moves to the attendee-only fetch, any non-timeout error at any tier
propagates unchanged, and a failure of the attendee-only fetch itself
also propagates (no fourth tier). -/
theorem claim_C1_only_timeout_escalates (db : AttendeeStore) (eventIds : List Int)
    (hne : eventIds ≠ []) :
    (∀ e, db.bulk eventIds = .error e → isStatementTimeout e = false →
      fetchAttendeesWithFallback db eventIds = .error e) ∧
    (∀ e rows, db.bulk eventIds = .error e → isStatementTimeout e = true →
      fetchAttendeesPerEvent db eventIds = .ok rows →
      fetchAttendeesWithFallback db eventIds = .ok { rows := rows, seatAssignmentsIncluded := true }) ∧
    (∀ e e2, db.bulk eventIds = .error e → isStatementTimeout e = true →
      fetchAttendeesPerEvent db eventIds = .error e2 → isStatementTimeout e2 = false →
      fetchAttendeesWithFallback db eventIds = .error e2) ∧
    (∀ e e2 rows, db.bulk eventIds = .error e → isStatementTimeout e = true →
      fetchAttendeesPerEvent db eventIds = .error e2 → isStatementTimeout e2 = true →
      fetchAttendeesWithoutSeats db eventIds = .ok rows →
      fetchAttendeesWithFallback db eventIds = .ok { rows := rows, seatAssignmentsIncluded := false }) ∧
    (∀ e e2 e3, db.bulk eventIds = .error e → isStatementTimeout e = true →
      fetchAttendeesPerEvent db eventIds = .error e2 → isStatementTimeout e2 = true →
      fetchAttendeesWithoutSeats db eventIds = .error e3 →
      fetchAttendeesWithFallback db eventIds = .error e3) := by
  refine ⟨?_, ?_, ?_, ?_, ?_⟩
  · intro e hb hnt
    simp only [fetchAttendeesWithFallback]
    rw [hb]
    dsimp only
    rw [if_neg (by simp [hnt])]
  · intro e rows hb ht hpe
    simp only [fetchAttendeesWithFallback]
    rw [hb]
    dsimp only
    rw [if_pos ht, hpe]
  · intro e e2 hb ht hpe hnt2
    simp only [fetchAttendeesWithFallback]
    rw [hb]
    dsimp only
    rw [if_pos ht, hpe]
    dsimp only
    rw [if_neg (by simp [hnt2])]
  · intro e e2 rows hb ht hpe ht2 hws
    simp only [fetchAttendeesWithFallback]
    rw [hb]
    dsimp only
    rw [if_pos ht, hpe]
    dsimp only
    rw [if_pos ht2, hws]
  · intro e e2 e3 hb ht hpe ht2 hws
    simp only [fetchAttendeesWithFallback]
    rw [hb]
    dsimp only
    rw [if_pos ht, hpe]
    dsimp only
    rw [if_pos ht2, hws]

/-- Witness for claim C1: a bulk failure with a non-timeout code
propagates unchanged on a concrete store. -/
theorem claim_C1_witness :
    fetchAttendeesWithFallback wStoreA [1] = .error { message := "boom", code := some "12345" } :=
  (claim_C1_only_timeout_escalates wStoreA [1] (by decide)).1
    { message := "boom", code := some "12345" } rfl rfl

/-- Claim C2: when the bulk fetch times out and every per-event query
succeeds, the result keeps `seatAssignmentsIncluded = true` and its rows
are the concatenation of the per-event results in event-id order,
truncated to at most 10000 rows; once the cap is reached the result is
exactly 10000 rows, and the outcome only depends on the per-event queries
actually issued before saturation. -/
theorem claim_C2_per_event_concatenation (db : AttendeeStore) (eventIds : List Int)
    (f : Int → List CombinedAttendeeRow) (e : DBError)
    (hne : eventIds ≠ [])
    (hb : db.bulk eventIds = .error e) (ht : isStatementTimeout e = true)
    (hok : ∀ i ∈ eventIds, db.perEvent i = .ok (f i)) :
    fetchAttendeesWithFallback db eventIds =
      .ok { rows := ((eventIds.map f).flatten).take MAX_ATTENDEE_ROWS
            seatAssignmentsIncluded := true } ∧
    (MAX_ATTENDEE_ROWS ≤ ((eventIds.map f).flatten).length →
      (((eventIds.map f).flatten).take MAX_ATTENDEE_ROWS).length = MAX_ATTENDEE_ROWS) ∧
    (∀ db' : AttendeeStore,
      (∀ i ∈ perEventQueried db eventIds 0, db'.perEvent i = db.perEvent i) →
      fetchAttendeesPerEvent db' eventIds = fetchAttendeesPerEvent db eventIds) := by
  have hperev : fetchAttendeesPerEvent db eventIds =
      .ok (((eventIds.map f).flatten).take MAX_ATTENDEE_ROWS) := by
    have h := fetchAttendeesPerEventGo_all_ok db f eventIds [] hok (by decide)
    simpa [fetchAttendeesPerEvent] using h
  refine ⟨?_, ?_, ?_⟩
  · simp only [fetchAttendeesWithFallback]
    rw [hb]
    dsimp only
    rw [if_pos ht, hperev]
  · intro hge
    simp only [List.length_take]
    omega
  · intro db' hag
    have h := fetchAttendeesPerEventGo_frame db db' eventIds [] (by simpa using hag)
    simpa [fetchAttendeesPerEvent] using h

/-- Witness for claim C2: two events, one row each, on a concrete store
whose bulk query times out. -/
theorem claim_C2_witness :
    fetchAttendeesWithFallback wStoreB [1, 2] =
      .ok { rows := (([1, 2].map (fun i : Int => [wRow i])).flatten).take MAX_ATTENDEE_ROWS
            seatAssignmentsIncluded := true } :=
  (claim_C2_per_event_concatenation wStoreB [1, 2] (fun i => [wRow i])
    { message := "statement timeout", code := some "57014" }
    (by decide) rfl rfl (fun _ _ => rfl)).1

/-- Claim C3: when both the bulk and per-event fetches time out, the
result has `seatAssignmentsIncluded = false` and every returned row has
seat id, seat object and check-in timestamp forced to null, whatever the
attendee-only query returned. -/
theorem claim_C3_no_seat_fallback (db : AttendeeStore) (eventIds : List Int)
    (e e2 : DBError) (bs : List BasicAttendeeRow)
    (hne : eventIds ≠ [])
    (hb : db.bulk eventIds = .error e) (ht : isStatementTimeout e = true)
    (hpe : fetchAttendeesPerEvent db eventIds = .error e2) (ht2 : isStatementTimeout e2 = true)
    (ha : db.attendeesOnly eventIds = .ok bs) :
    fetchAttendeesWithFallback db eventIds =
      .ok { rows := bs.map basicToCombined, seatAssignmentsIncluded := false } ∧
    ∀ row ∈ bs.map basicToCombined,
      row.seat_id = none ∧ row.seat_obj = none ∧ row.checkin_timestamp = none :=
  ⟨fallback_tier3 db eventIds e e2 bs hb ht hpe ht2 ha, mapped_rows_seat_fields bs⟩

/-- Witness for claim C3: both tiers time out on a concrete store and the
attendee-only rows come back with nulled seat fields. -/
theorem claim_C3_witness :
    fetchAttendeesWithFallback wStoreC [1] =
      .ok { rows := [{ attendee_id := 7, first_name := some "A", last_name := some "B", event_id := 5 }].map basicToCombined
            seatAssignmentsIncluded := false } :=
  (claim_C3_no_seat_fallback wStoreC [1]
    { message := "statement timeout", code := some "57014" }
    { message := "statement timeout", code := some "57014" }
    [{ attendee_id := 7, first_name := some "A", last_name := some "B", event_id := 5 }]
    (by decide) rfl rfl rfl rfl rfl).1

/-- Claim C10 (implicit): when a per-event query times out partway
through the iteration, every row accumulated from the earlier per-event
queries is discarded: the tier-2 fetch returns the error, and the final
result is computed solely from the fresh attendee-only query, so no
tier-2 partial row appears in the response. -/
theorem claim_C10_partial_rows_discarded (db : AttendeeStore)
    (ids₁ ids₂ : List Int) (j : Int) (f : Int → List CombinedAttendeeRow)
    (e e2 : DBError) (bs : List BasicAttendeeRow)
    (hb : db.bulk (ids₁ ++ j :: ids₂) = .error e) (ht : isStatementTimeout e = true)
    (hok : ∀ i ∈ ids₁, db.perEvent i = .ok (f i))
    (hlen : ((ids₁.map f).flatten).length < MAX_ATTENDEE_ROWS)
    (hj : db.perEvent j = .error e2) (ht2 : isStatementTimeout e2 = true)
    (ha : db.attendeesOnly (ids₁ ++ j :: ids₂) = .ok bs) :
    fetchAttendeesPerEvent db (ids₁ ++ j :: ids₂) = .error e2 ∧
    fetchAttendeesWithFallback db (ids₁ ++ j :: ids₂) =
      .ok { rows := bs.map basicToCombined, seatAssignmentsIncluded := false } ∧
    ∀ row ∈ bs.map basicToCombined,
      row.seat_id = none ∧ row.seat_obj = none ∧ row.checkin_timestamp = none := by
  have hpe : fetchAttendeesPerEvent db (ids₁ ++ j :: ids₂) = .error e2 := by
    have h := fetchAttendeesPerEventGo_error_after db f j ids₂ e2 hj ids₁ [] hok
      (by simpa using hlen)
    simpa [fetchAttendeesPerEvent] using h
  exact ⟨hpe, fallback_tier3 db (ids₁ ++ j :: ids₂) e e2 bs hb ht hpe ht2 ha,
    mapped_rows_seat_fields bs⟩

/-- Witness for claim C10: event 1 succeeds, event 9 times out, event 2
is never reached; the response contains only the fresh attendee-only
row. -/
theorem claim_C10_witness :
    fetchAttendeesWithFallback wStoreD ([1] ++ 9 :: [2]) =
      .ok { rows := [{ attendee_id := 7, first_name := some "A", last_name := some "B", event_id := 5 }].map basicToCombined
            seatAssignmentsIncluded := false } :=
  (claim_C10_partial_rows_discarded wStoreD [1] [2] 9 (fun i => [wRow i])
    { message := "statement timeout", code := some "57014" }
    { message := "statement timeout", code := some "57014" }
    [{ attendee_id := 7, first_name := some "A", last_name := some "B", event_id := 5 }]
    rfl rfl (fun i hi => by simp only [List.mem_singleton] at hi; subst hi; rfl)
    (by decide) rfl rfl rfl).2.1

/-- Claim C4: the seat display string is resolved in order: the raw seat
identifier when present (non-null, non-empty); else the structured
components joined as label-colon-value pairs separated by comma-space
when at least one exists; else null. In particular seat id
CAR 4-Seat 25 yields itself, and components Car/4 and Seat/25 with no
identifier yield the joined string. -/
theorem claim_C4_seat_display_resolution :
    (∀ row : ResultRow, strTruthy row.seat_id = true →
      (transformRow row).seatInfo = row.seat_id) ∧
    (∀ row : ResultRow, strTruthy row.seat_id = false →
      ∀ comps, row.seat_obj = some { components := some comps } → 0 < comps.length →
      (transformRow row).seatInfo =
        some (String.intercalate ", " (comps.map (fun comp => comp.label ++ ": " ++ comp.value)))) ∧
    (∀ row : ResultRow, strTruthy row.seat_id = false →
      (row.seat_obj = none ∨ row.seat_obj = some { components := none } ∨
        row.seat_obj = some { components := some [] }) →
      (transformRow row).seatInfo = none) ∧
    (∀ row : ResultRow, row.seat_id = some "CAR 4-Seat 25" →
      (transformRow row).seatInfo = some "CAR 4-Seat 25") ∧
    (∀ row : ResultRow, row.seat_id = none →
      row.seat_obj = some { components := some [
        { key := "car", label := "Car", value := "4" },
        { key := "seat", label := "Seat", value := "25" }] } →
      (transformRow row).seatInfo = some "Car: 4, Seat: 25") := by
  refine ⟨?_, ?_, ?_, ?_, ?_⟩
  · intro row h
    show resolveSeatInfo row.seat_id row.seat_obj = row.seat_id
    simp only [resolveSeatInfo]
    rw [if_pos h]
  · intro row h comps hobj hlen
    show resolveSeatInfo row.seat_id row.seat_obj = _
    simp only [resolveSeatInfo]
    rw [if_neg (by simp [h]), hobj]
    dsimp only
    rw [if_pos hlen]
  · intro row h hcases
    show resolveSeatInfo row.seat_id row.seat_obj = none
    simp only [resolveSeatInfo]
    rw [if_neg (by simp [h])]
    rcases hcases with h1 | h1 | h1 <;> rw [h1] <;> rfl
  · intro row h
    show resolveSeatInfo row.seat_id row.seat_obj = some "CAR 4-Seat 25"
    rw [h]
    rfl
  · intro row h1 h2
    show resolveSeatInfo row.seat_id row.seat_obj = some "Car: 4, Seat: 25"
    rw [h1, h2]
    rfl

/-- Witness for claim C4: both concrete seat-display examples, applied at
explicit rows. -/
theorem claim_C4_witness :
    (transformRow { first_name := none, last_name := none, event_id := 0,
                    event_start_at_formatted := "-", seat_id := some "CAR 4-Seat 25",
                    seat_obj := none, checkin_timestamp := none }).seatInfo = some "CAR 4-Seat 25" :=
  claim_C4_seat_display_resolution.2.2.2.1
    { first_name := none, last_name := none, event_id := 0,
      event_start_at_formatted := "-", seat_id := some "CAR 4-Seat 25",
      seat_obj := none, checkin_timestamp := none } rfl

/-- Claim C5: every failure of the request handler yields exactly one
JSON error response: status 503 exactly for connectivity failures, 500
for everything else (including a timeout that exhausted all tiers), and
the details field is populated only in development builds, hence absent
in production. -/
theorem claim_C5_error_responses (nodeEnv : String) (db : Store) (e : DBError)
    (hfail : handleGET db = .error e) :
    GET nodeEnv db = .failure (errorResponseOf nodeEnv e) ∧
    ((errorResponseOf nodeEnv e).status = 503 ↔ isConnectionError e = true) ∧
    (isConnectionError e = false → (errorResponseOf nodeEnv e).status = 500) ∧
    ((errorResponseOf nodeEnv e).details ≠ none → nodeEnv = "development") ∧
    (nodeEnv = "production" → (errorResponseOf nodeEnv e).details = none) := by
  refine ⟨?_, ?_, ?_, ?_, ?_⟩
  · simp only [GET]
    rw [hfail]
  · cases hc : isConnectionError e <;> simp [errorResponseOf, hc]
  · intro hc
    simp [errorResponseOf, hc]
  · intro hd
    by_cases hdev : nodeEnv = "development"
    · exact hdev
    · exfalso
      apply hd
      have hb : (nodeEnv == "development") = false := beq_eq_false_iff_ne.mpr hdev
      cases hc : isConnectionError e <;> simp [errorResponseOf, hc, hb]
  · intro hprod
    have hb : (nodeEnv == "development") = false :=
      beq_eq_false_iff_ne.mpr (by rw [hprod]; decide)
    cases hc : isConnectionError e <;> simp [errorResponseOf, hc, hb]

/-- Witness for claim C5: a connection-level failure of the event
resolver on a concrete store surfaces as the classified error response. -/
theorem claim_C5_witness :
    GET "production" wStoreFail =
      .failure (errorResponseOf "production" { message := "connect ECONNREFUSED", code := none }) :=
  (claim_C5_error_responses "production" wStoreFail
    { message := "connect ECONNREFUSED", code := none } rfl).1

/-- Claim C6: when the event resolver returns zero qualifying events, the
handler returns the empty result body with total 0 immediately and
without error, and the outcome is independent of the attendee-fetch
oracle, so no fetch strategy is invoked. -/
theorem claim_C6_zero_events_short_circuit (db : Store) (n : Int)
    (hcount : db.eventCount = .ok n) (hevents : db.events = .ok []) :
    handleGET db = .ok { results := [],
                         metadata := { hostUserId := HOST_USER_ID, total := 0, seatAssignmentsIncluded := none } } ∧
    ∀ att' : AttendeeStore, handleGET { db with att := att' } = handleGET db := by
  have key : ∀ d : Store, d.eventCount = .ok n → d.events = .ok [] →
      handleGET d = .ok { results := [],
                          metadata := { hostUserId := HOST_USER_ID, total := 0, seatAssignmentsIncluded := none } } := by
    intro d h1 h2
    simp only [handleGET]
    rw [h1, h2]
    rfl
  refine ⟨key db hcount hevents, fun att' => ?_⟩
  rw [key db hcount hevents, key { db with att := att' } hcount hevents]

/-- Witness for claim C6: a concrete store with zero qualifying events. -/
theorem claim_C6_witness :
    handleGET wStoreEmpty = .ok { results := [],
                                  metadata := { hostUserId := HOST_USER_ID, total := 0, seatAssignmentsIncluded := none } } :=
  (claim_C6_zero_events_short_circuit wStoreEmpty 3 rfl rfl).1

/-- Claim C7: the within-group sort parses each seat display string
against the car/seat-or-table pattern (case-insensitive, optional
separators), sorts ascending by car number then seat-or-table number,
and places null or non-matching seat strings after all matching rows;
in particular CAR 2-Seat 3, CAR 1-Seat 10, null sorts to
CAR 1-Seat 10, CAR 2-Seat 3, null. -/
theorem claim_C7_within_group_sort :
    (∀ attendees : List AttendeeResult, (sortAttendeesBySeat attendees).Perm attendees) ∧
    (∀ attendees : List AttendeeResult, (sortAttendeesBySeat attendees).Pairwise seatLE) ∧
    (∀ attendees : List AttendeeResult, (sortAttendeesBySeat attendees).Pairwise
      (fun a b => parseSeatId a.seatInfo = none → parseSeatId b.seatInfo = none)) ∧
    parseSeatId (some "CAR 2-Seat 3") = some (2, 3) ∧
    parseSeatId (some "CAR 1-Seat 10") = some (1, 10) ∧
    parseSeatId (some "car 1 - table 5") = some (1, 5) ∧
    parseSeatId none = none ∧
    (sortAttendeesBySeat [seatRow "a" (some "CAR 2-Seat 3"), seatRow "b" (some "CAR 1-Seat 10"),
        seatRow "c" none]).map (fun r => r.seatInfo) =
      [some "CAR 1-Seat 10", some "CAR 2-Seat 3", none] := by
  refine ⟨?_, ?_, ?_, ?_, ?_, ?_, ?_, ?_⟩
  · intro attendees
    exact List.perm_insertionSort seatLE attendees
  · intro attendees
    exact List.sorted_insertionSort seatLE attendees
  · intro attendees
    refine List.Pairwise.imp ?_ (List.sorted_insertionSort seatLE attendees)
    intro a b hle hnone
    unfold seatLE at hle
    rw [hnone] at hle
    cases hkb : parseSeatId b.seatInfo with
    | none => rfl
    | some p =>
      rw [hkb] at hle
      simp [seatKeyLE] at hle
  · rfl
  · rfl
  · rfl
  · rfl
  · decide

/-- Witness for claim C7: the pattern parse of a concrete seat string,
via the claim theorem. -/
theorem claim_C7_witness : parseSeatId (some "CAR 2-Seat 3") = some (2, 3) :=
  claim_C7_within_group_sort.2.2.2.1

/-- Claim C8: grouping of displayed rows is by exact equality of the
event display-time string, not by event identifier: any two rows with
equal display-time strings land in the same group. -/
theorem claim_C8_grouping_by_display_time (rows : List AttendeeResult)
    (r1 r2 : AttendeeResult) (h1 : r1 ∈ rows) (h2 : r2 ∈ rows)
    (ht : r1.eventStartTime = r2.eventStartTime) :
    ∃ g ∈ groupedEvents rows, g.eventStartTime = r1.eventStartTime ∧
      r1 ∈ g.attendees ∧ r2 ∈ g.attendees := by
  have hchar : groupAttendees (groupedEvents rows) r1.eventStartTime =
      rows.filter (fun r => r.eventStartTime == r1.eventStartTime) := by
    have h := groupAttendees_foldl rows [] r1.eventStartTime
    have h0 : groupAttendees [] r1.eventStartTime = [] := rfl
    rw [h0, List.nil_append] at h
    simpa [groupedEvents] using h
  have hm1 : r1 ∈ rows.filter (fun r => r.eventStartTime == r1.eventStartTime) :=
    List.mem_filter.mpr ⟨h1, by simp⟩
  have hm2 : r2 ∈ rows.filter (fun r => r.eventStartTime == r1.eventStartTime) :=
    List.mem_filter.mpr ⟨h2, beq_iff_eq.mpr ht.symm⟩
  cases hfind : (groupedEvents rows).find? (fun g => g.eventStartTime == r1.eventStartTime) with
  | none =>
    exfalso
    have hempty : groupAttendees (groupedEvents rows) r1.eventStartTime = [] := by
      simp [groupAttendees, hfind]
    rw [hchar] at hempty
    rw [hempty] at hm1
    exact List.not_mem_nil r1 hm1
  | some g =>
    have hga : groupAttendees (groupedEvents rows) r1.eventStartTime = g.attendees := by
      simp [groupAttendees, hfind]
    have hmem : g ∈ groupedEvents rows := List.mem_of_find?_eq_some hfind
    have hgt : g.eventStartTime = r1.eventStartTime := by
      have hp := List.find?_some hfind
      simpa using hp
    have hge : g.attendees = rows.filter (fun r => r.eventStartTime == r1.eventStartTime) := by
      rw [← hga, hchar]
    refine ⟨g, hmem, hgt, ?_, ?_⟩
    · rw [hge]
      exact hm1
    · rw [hge]
      exact hm2

/-- Witness for claim C8: two distinct rows with the same display-time
string are grouped together. -/
theorem claim_C8_witness :
    ∃ g ∈ groupedEvents [anaRow, juanRow], g.eventStartTime = anaRow.eventStartTime ∧
      anaRow ∈ g.attendees ∧ juanRow ∈ g.attendees :=
  claim_C8_grouping_by_display_time [anaRow, juanRow] anaRow juanRow
    (by decide) (by decide) rfl

/-- Claim C9: the free-text name filter keeps exactly the rows whose
attendee display name contains the query as a case-insensitive
substring; the empty query keeps every row; query ana on Ana Lee and
Juan Cruz keeps only Ana Lee. -/
theorem claim_C9_name_filter :
    (∀ results : List AttendeeResult, filteredResults "" results = results) ∧
    (∀ (q : String) (results : List AttendeeResult) (row : AttendeeResult),
      (trimChars q.toList).isEmpty = false →
      (row ∈ filteredResults q results ↔ row ∈ results ∧
        ∃ pre post, row.attendeeName.toList.map Char.toLower =
          pre ++ q.toList.map Char.toLower ++ post)) ∧
    filteredResults "ana" [anaRow, juanRow] = [anaRow] := by
  refine ⟨?_, ?_, ?_⟩
  · intro results
    have h : (trimChars "".toList).isEmpty = true := rfl
    simp [filteredResults, h]
    exact fun a _ => Or.inl rfl
  · intro q results row hq
    have hcond : ¬ ((trimChars q.toList).isEmpty = true) := by
      intro htrue
      simp only [hq] at htrue
      exact Bool.false_ne_true htrue
    simp only [filteredResults, List.mem_filter]
    rw [if_neg hcond, containsChars_iff]
  · decide

/-- Witness for claim C9: the empty query keeps every row of a concrete
list. -/
theorem claim_C9_witness : filteredResults "" [anaRow] = [anaRow] :=
  claim_C9_name_filter.1 [anaRow]

end GrrCheckin

